import Mathlib

/-!
Shallow embedding of the protocol engine of the `numato_gpio` package
(`src/numato_gpio/__init__.py` and `src/numato_gpio/device_types.py`).

Conventions of the embedding:

* Python integers appearing in the session are all non-negative, so they are
  embedded as `ℕ`.  Python's bitwise operators on non-negative ints coincide
  with `ℕ`'s `&&&`, `|||`, `^^^`, `<<<`, `>>>`.  The single use of Python's
  two's-complement `~` (in `writeall`: `bits & ~self._iodir`) is embedded via
  `ℤ` (`pyAndNot` below), mirroring that `~x = -(x+1)`.
* Every device-mutating method of `NumatoUsbGpio` is embedded as a state
  transformer `DevState → DevState × List String × Option Err`, returning the
  new cached state, the list of query texts issued through `_query` (without
  the trailing carriage return), and an error, `none` meaning normal return.
  The embedding models *completed* calls: the serial exchange of each issued
  query is assumed to succeed, which is exactly the situation the analysed
  claims describe.  The byte-level echo verification of `_query` itself is
  embedded separately (`query`, below) over the Handoff Buffer contents.
* Python callables stored in the `_callback` array are opaque; they are
  embedded as identifiers (`CbSlot.callable id`).  The array slots can also
  hold the integer `0` (from `__init__`) or `None` (from
  `remove_event_detect`), kept distinct in `CbSlot`.
-/

namespace NumatoGpio

/-- Edge detection constants (`RISING = 1`, `FALLING = 2`, `BOTH = 3`). -/
def RISING : ℕ := 1

/-- Edge detection constant `FALLING = 2`. -/
def FALLING : ℕ := 2

/-- Edge detection constant `BOTH = 3`. -/
def BOTH : ℕ := 3

/-- Port direction constant `OUT = 0`. -/
def OUT : ℕ := 0

/-- Port direction constant `IN = 1`. -/
def IN : ℕ := 1

/-- A slot of the `_callback` array: integer `0` right after `__init__`
(`self._callback = [0] * self.ports`), Python `None` after
`remove_event_detect`, or a registered callable (identified opaquely). -/
inductive CbSlot
  | intZero
  | pyNone
  | callable (id : ℕ)
deriving DecidableEq, Repr

/-- Error outcomes of the embedded methods, one per `raise NumatoGpioError`
site relevant to the analysed claims. -/
inductive Err
  | portRange (port : ℕ)
  | ioDirection
  | adcPort (port : ℕ)
deriving DecidableEq, Repr

/-- Cached mutable state of one `NumatoUsbGpio` object: the fields `_iodir`,
`_iomask`, `_state`, `_notify`, `_callback`, `_edge` together with the
constant `ports`. -/
structure DevState where
  ports : ℕ
  iodir : ℕ
  iomask : ℕ
  state : ℕ
  notify : Bool
  callback : List CbSlot
  edge : List (Option ℕ)
deriving DecidableEq, Repr

/-- `self._MASK_ALL_PORTS = 2**self.ports - 1`. -/
def MASK_ALL_PORTS (s : DevState) : ℕ := 2 ^ s.ports - 1

/-- `self._HEX_DIGITS = self.ports // 4`. -/
def HEX_DIGITS (s : DevState) : ℕ := s.ports / 4

/-- Python's `bits & ~iodir` on (non-negative) ints, embedded through `ℤ`
with Mathlib's two's-complement bitwise operations: `~x` is `Int.lnot x`. -/
def pyAndNot (bits iodir : ℕ) : ℕ :=
  (Int.land (bits : ℤ) (Int.lnot (iodir : ℤ))).toNat

/-- On naturals, `bits & ~iodir` is the bitwise difference `Nat.ldiff`. -/
theorem pyAndNot_eq_ldiff (bits iodir : ℕ) :
    pyAndNot bits iodir = Nat.ldiff bits iodir := by
  have h1 : Int.lnot (iodir : ℤ) = Int.negSucc iodir := rfl
  have h2 : Int.land (bits : ℤ) (Int.negSucc iodir) = (Nat.ldiff bits iodir : ℤ) := rfl
  simp [pyAndNot, h1, h2]

/-- Python `"{:0{dgts}x}".format(v)`: lowercase hexadecimal representation of
`v`, left-padded with zeros to at least `dgts` characters. -/
def pyHexPad (v dgts : ℕ) : String :=
  let ds := Nat.toDigits 16 v
  ⟨List.replicate (dgts - ds.length) '0' ++ ds⟩

/-- Setter of the `iomask` property: issue `gpio iomask <hex>` (expecting an
empty response) and cache the mask in `_iomask`. -/
def set_iomask (s : DevState) (mask : ℕ) : DevState × List String × Option Err :=
  ({ s with iomask := mask },
   ["gpio iomask " ++ pyHexPad mask (HEX_DIGITS s)],
   none)

/-- Setter of the `iodir` property: set `iomask` to `_MASK_ALL_PORTS`, issue
`gpio iodir <hex>` (expecting an empty response), set `iomask` to
`direction ^ _MASK_ALL_PORTS`, and cache `_iodir = direction`. -/
def set_iodir (s : DevState) (direction : ℕ) : DevState × List String × Option Err :=
  let r1 := set_iomask s (MASK_ALL_PORTS s)
  let q2 := "gpio iodir " ++ pyHexPad direction (HEX_DIGITS s)
  let r3 := set_iomask r1.1 (direction ^^^ MASK_ALL_PORTS s)
  ({ r3.1 with iodir := direction },
   r1.2.1 ++ [q2] ++ r3.2.1,
   none)

/-- `writeall(bits)`: `self._state = bits & ~self._iodir`, then issue
`gpio writeall <hex of _state>` expecting an empty response. -/
def writeall (s : DevState) (bits : ℕ) : DevState × List String × Option Err :=
  let s1 := { s with state := pyAndNot bits s.iodir }
  (s1,
   ["gpio writeall " ++ pyHexPad s1.state (HEX_DIGITS s)],
   none)

/-- `setup(port, direction)`: range-check the port, then apply an `iodir`
with only that port's bit changed
(`(iodir & ((1 << port) ^ MASK)) | ((0 if not direction else 1) << port)`). -/
def setup (s : DevState) (port direction : ℕ) : DevState × List String × Option Err :=
  if port < s.ports then
    let new_iodir := (s.iodir &&& ((1 <<< port) ^^^ MASK_ALL_PORTS s)) |||
      ((if direction = 0 then 0 else 1) <<< port)
    set_iodir s new_iodir
  else (s, [], some (.portRange port))

/-- `write(port, value)`: range-check; raise (ioDirection) if
`(self._iodir >> port) & 1` is truthy; otherwise update the `_state` bit and
call `writeall(self._state)`. -/
def write (s : DevState) (port : ℕ) (value : Bool) : DevState × List String × Option Err :=
  if port < s.ports then
    if (s.iodir >>> port) &&& 1 ≠ 0 then (s, [], some .ioDirection)
    else
      let s1 := { s with
        state := (s.state &&& ((1 <<< port) ^^^ MASK_ALL_PORTS s)) |||
          ((if value then 1 else 0) <<< port) }
      writeall s1 s1.state
  else (s, [], some (.portRange port))

/-- Property `can_notify`: `return self.ports != 8`. -/
def can_notify (s : DevState) : Bool := s.ports != 8

/-- Setter of the `notify` property: `if not self.can_notify: return`
(silently, issuing nothing and raising nothing); otherwise issue
`gpio notify on`/`off` expecting the matching `enabled`/`disabled` response
and cache `_notify = enable`. -/
def set_notify (s : DevState) (enable : Bool) : DevState × List String × Option Err :=
  if can_notify s = false then (s, [], none)
  else
    ({ s with notify := enable },
     ["gpio notify " ++ (if enable then "on" else "off")],
     none)

/-- `add_event_detect(port, callback, edge)`: `self._callback[port] = callback;
self._edge[port] = edge`.  No port-range or notification-support check. -/
def add_event_detect (s : DevState) (port cb edge : ℕ) :
    DevState × List String × Option Err :=
  ({ s with
      callback := s.callback.set port (.callable cb),
      edge := s.edge.set port (some edge) },
   [], none)

/-- `remove_event_detect(port)`: `self._callback[port] = None;
self._edge[port] = None`. -/
def remove_event_detect (s : DevState) (port : ℕ) :
    DevState × List String × Option Err :=
  ({ s with
      callback := s.callback.set port .pyNone,
      edge := s.edge.set port none },
   [], none)

/-- Tail of `__init__` (after the serial port is opened, the poller started,
EOL detected and `ports` determined): `self._state = 0`,
`self._callback = [0] * ports`, `self._edge = [None] * ports`, then
`self.iodir = self._MASK_ALL_PORTS` (through the `iodir` setter) and
`self.notify = False`.  Before the first `iodir` assignment, the `iodir`
getter defaults `_iodir` to `_MASK_ALL_PORTS`; `_iomask` starts unset (it is
modelled as 0 and is overwritten by the first `set_iodir` before any read). -/
def initSession (ports : ℕ) : DevState × List String :=
  let s0 : DevState :=
    { ports := ports
      iodir := 2 ^ ports - 1
      iomask := 0
      state := 0
      notify := false
      callback := List.replicate ports .intZero
      edge := List.replicate ports none }
  let r1 := set_iodir s0 (MASK_ALL_PORTS s0)
  let r2 := set_notify r1.1 false
  (r2.1, r1.2.1 ++ r2.2.1)

/-- State of a freshly constructed session with the given port count. -/
def sessionOf (ports : ℕ) : DevState := (initSession ports).1

/-- Class attribute `NumatoUsbGpio.ADC_PORTS`: per port count, the dict of
ADC-capable port index to label (embedded as an association list in the
source's insertion order). -/
def ADC_PORTS : List (ℕ × List (ℕ × String)) :=
  [(8, [(0, "ADC0"), (1, "ADC1"), (2, "ADC2"), (3, "ADC3"), (6, "ADC4"), (7, "ADC5")]),
   (16, [(0, "ADC0"), (1, "ADC1"), (2, "ADC2"), (3, "ADC3"), (4, "ADC4"), (5, "ADC5"),
         (6, "ADC6")]),
   (32, [(1, "ADC1"), (2, "ADC2"), (3, "ADC3"), (4, "ADC4"), (5, "ADC5"), (6, "ADC6"),
         (7, "ADC7")]),
   (64, [(0, "ADC0"), (1, "ADC1"), (2, "ADC2"), (3, "ADC3"), (4, "ADC4"), (5, "ADC5"),
         (6, "ADC6"), (7, "ADC7"), (8, "ADC8"), (9, "ADC9"), (10, "ADC10"), (11, "ADC11"),
         (12, "ADC12"), (13, "ADC13"), (14, "ADC14"), (15, "ADC15"), (16, "ADC16"),
         (17, "ADC17"), (18, "ADC18"), (19, "ADC19"), (20, "ADC20"), (21, "ADC21"),
         (22, "ADC22"), (23, "ADC23"), (24, "ADC24"), (25, "ADC25"), (26, "ADC26"),
         (27, "ADC27"), (28, "ADC28"), (29, "ADC29"), (30, "ADC30"), (31, "ADC31")]),
   (128, [(0, "ADC0"), (1, "ADC1"), (2, "ADC2"), (3, "ADC3"), (4, "ADC4"), (5, "ADC5"),
          (6, "ADC6"), (7, "ADC7"), (8, "ADC8"), (9, "ADC9"), (10, "ADC10"), (11, "ADC11"),
          (12, "ADC12"), (13, "ADC13"), (14, "ADC14"), (15, "ADC15"), (16, "ADC16"),
          (17, "ADC17"), (18, "ADC18"), (19, "ADC19"), (20, "ADC20"), (21, "ADC21"),
          (22, "ADC22"), (23, "ADC23"), (24, "ADC24"), (25, "ADC25"), (26, "ADC26"),
          (27, "ADC27"), (28, "ADC28"), (29, "ADC29"), (30, "ADC30"), (31, "ADC31")])]

/-- Class attribute `NumatoUsbGpio.ADC_RESOLUTION` (bits per port count). -/
def ADC_RESOLUTION : List (ℕ × ℕ) := [(8, 10), (16, 10), (32, 10), (64, 12), (128, 12)]

/-- `adc_read(adc_port)`, up to the query it issues: raise (adcPort) if
`adc_port not in self.ADC_PORTS[self.ports]`, otherwise issue
`"adc read {}".format(adc_port)` (Python's unpadded decimal formatting).
The outer `Option` models the `self.ADC_PORTS[self.ports]` dict access
(`none` for a `KeyError` on an unsupported port count); the parsing of the
device's decimal response is outside the analysed claims. -/
def adc_read (s : DevState) (adc_port : ℕ) : Option (List String × Option Err) :=
  (ADC_PORTS.lookup s.ports).map fun adcmap =>
    if (adcmap.lookup adc_port).isNone then ([], some (.adcPort adc_port))
    else (["adc read " ++ Nat.repr adc_port], none)

/-- Dataclass `DeviceSpec` of `device_types.py`. -/
structure DeviceSpec where
  name : String
  url : String
  ports : ℕ
  supports_notification : Bool
  adc_resolution_bits : ℕ
  adc_port_digits : ℕ
  adc_ports : List (ℕ × String)
deriving DecidableEq, Repr

/-- `DeviceType.USB_GPIO_8.value` from `device_types.py`. -/
def USB_GPIO_8 : DeviceSpec :=
  { name := "8 Channel USB GPIO Module With Analog Inputs"
    url := "https://numato.com/docs/8-channel-usb-gpio-module-with-analog-inputs"
    ports := 8
    supports_notification := false
    adc_resolution_bits := 10
    adc_port_digits := 1
    adc_ports := [(0, "ADC0"), (1, "ADC1"), (2, "ADC2"), (3, "ADC3"), (6, "ADC4"),
                  (7, "ADC5")] }

/-- `DeviceType.USB_GPIO_16.value` from `device_types.py`. -/
def USB_GPIO_16 : DeviceSpec :=
  { name := "16 Channel USB GPIO Module With Analog Inputs"
    url := "https://numato.com/docs/16-channel-usb-gpio-module-with-analog-inputs"
    ports := 16
    supports_notification := true
    adc_resolution_bits := 10
    adc_port_digits := 1
    adc_ports := [(0, "ADC0"), (1, "ADC1"), (2, "ADC2"), (3, "ADC3"), (4, "ADC4"),
                  (5, "ADC5"), (6, "ADC6")] }

/-- `DeviceType.USB_GPIO_32.value` from `device_types.py`. -/
def USB_GPIO_32 : DeviceSpec :=
  { name := "32 Channel USB GPIO Module With Analog Inputs"
    url := "https://numato.com/docs/32-channel-usb-gpio-module-with-analog-inputs"
    ports := 32
    supports_notification := false
    adc_resolution_bits := 10
    adc_port_digits := 1
    adc_ports := [(1, "ADC1"), (2, "ADC2"), (3, "ADC3"), (4, "ADC4"), (5, "ADC5"),
                  (6, "ADC6"), (7, "ADC7")] }

/-- `DeviceType.USB_GPIO_64.value` from `device_types.py`. -/
def USB_GPIO_64 : DeviceSpec :=
  { name := "64 Channel USB GPIO Module With Analog Inputs"
    url := "https://numato.com/docs/64-channel-usb-gpio-module-analog-inputs"
    ports := 64
    supports_notification := false
    adc_resolution_bits := 10
    adc_port_digits := 1
    adc_ports := [(0, "ADC0"), (1, "ADC1"), (2, "ADC2"), (3, "ADC3"), (4, "ADC4"),
                  (5, "ADC5"), (6, "ADC6"), (7, "ADC7"), (8, "ADC8"), (9, "ADC9"),
                  (10, "ADC10"), (11, "ADC11"), (12, "ADC12"), (13, "ADC13"),
                  (14, "ADC14"), (15, "ADC15"), (16, "ADC16"), (17, "ADC17"),
                  (18, "ADC18"), (19, "ADC19"), (20, "ADC20"), (21, "ADC21"),
                  (22, "ADC22"), (23, "ADC23"), (24, "ADC24"), (25, "ADC25"),
                  (26, "ADC26"), (27, "ADC27"), (28, "ADC28"), (29, "ADC29"),
                  (30, "ADC30"), (31, "ADC31")] }

/-- `DeviceType.USB_GPIO_128.value` from `device_types.py`. -/
def USB_GPIO_128 : DeviceSpec :=
  { name := "128 Channel USB GPIO Module With Analog Inputs"
    url := "https://numato.com/docs/128-channel-usb-gpio-module-with-analog-inputs"
    ports := 128
    supports_notification := false
    adc_resolution_bits := 10
    adc_port_digits := 1
    adc_ports := [(0, "ADC0"), (1, "ADC1"), (2, "ADC2"), (3, "ADC3"), (4, "ADC4"),
                  (5, "ADC5"), (6, "ADC6"), (7, "ADC7"), (8, "ADC8"), (9, "ADC9"),
                  (10, "ADC10"), (11, "ADC11"), (12, "ADC12"), (13, "ADC13"),
                  (14, "ADC14"), (15, "ADC15"), (16, "ADC16"), (17, "ADC17"),
                  (18, "ADC18"), (19, "ADC19"), (20, "ADC20"), (21, "ADC21"),
                  (22, "ADC22"), (23, "ADC23"), (24, "ADC24"), (25, "ADC25"),
                  (26, "ADC26"), (27, "ADC27"), (28, "ADC28"), (29, "ADC29"),
                  (30, "ADC30"), (31, "ADC31")] }

/-- All `DeviceType` members, in declaration order. -/
def DeviceTypes : List DeviceSpec :=
  [USB_GPIO_8, USB_GPIO_16, USB_GPIO_32, USB_GPIO_64, USB_GPIO_128]

/-- `spec_from_number_of_ports(num_ports)`: build
`{device_type.value.ports: device_type.value for device_type in DeviceType}`
and index it with `num_ports` (`none` models the `KeyError`). -/
def spec_from_number_of_ports (num_ports : ℕ) : Option DeviceSpec :=
  (DeviceTypes.map fun spec => (spec.ports, spec)).lookup num_ports

/-- Outcome of one `_query` call on the byte level. -/
inductive QueryRes
  | ok (rest : List Char)
  | echoError (sent echoed : List Char)
  | blocked
deriving DecidableEq, Repr

/-- `_read(num)` on the Handoff Buffer, in the case where enough bytes are
buffered: take the first `num` characters and leave the rest
(`response, self._buf = self._buf[0:num], self._buf[num:]`).  `none` models
the blocking wait when fewer than `num` bytes are available. -/
def read_buf (buf : List Char) (num : ℕ) : Option (List Char × List Char) :=
  if num ≤ buf.length then some (buf.take num, buf.drop num) else none

/-- `_query(query)` up to echo verification: write `query + "\r"` to the
serial port, then `_read_string(query + eol)`, which reads exactly
`len(query + eol)` (encoded) bytes from the Handoff Buffer and raises with
the bytes actually read if `string != expected` (exact string comparison);
`_query` wraps that into an echo error carrying the sent query and the
echoed bytes.  The result pairs the bytes written to the serial port with
the outcome.  All query texts are ASCII, so encoded length equals character
count. -/
def query (q eol buf : List Char) : List Char × QueryRes :=
  match read_buf buf (q ++ eol).length with
  | none => (q ++ ['\r'], .blocked)
  | some (got, rest) =>
      if got = q ++ eol then (q ++ ['\r'], .ok rest)
      else (q ++ ['\r'], .echoError q got)

/-- Hexadecimal digit characters (the digits of a device id). -/
def isHexChar (c : Char) : Bool :=
  c.isDigit || ('a' ≤ c && c ≤ 'f') || ('A' ≤ c && c ≤ 'F')

/-- Lowercase folding of a character list (for stating case-insensitivity). -/
def toLowerList (l : List Char) : List Char := l.map Char.toLower

/-- Core of `_detect_eol`, applied to the string returned by
`_read_until(">")` (which includes the final prompt character):
`eol = response[-3:-1]; if eol[0] not in ["\r", "\n"]: eol = eol[1]`.
Python's slice `[-3:-1]` of a string of length `L` keeps the characters at
indices `max(0, L-3)` to `L-2`, i.e. drops the last character of the last
three. -/
def detect_eol (response : List Char) : List Char :=
  let eol := (response.drop (response.length - 3)).dropLast
  match eol with
  | [a, b] => if a = '\r' ∨ a = '\n' then [a, b] else [b]
  | l => l

/-- Response of a Numato device to the `id get` probe of `_detect_eol`, as a
function of the device's end-of-line sequence: the echoed query terminated by
`eol`, the 8-hex-digit id terminated by `eol`, and the prompt. -/
def id_get_response (eol idchars : List Char) : List Char :=
  "id get".toList ++ eol ++ idchars ++ eol ++ ['>']

/-- The synchronisation-relevant state of the Poller (`_poll`), the Handoff
Buffer (`_buf` with `_can_read`) and one consumer blocked inside `_read`:
the buffered characters, whether the serial port is open, whether the poller
thread is still in its loop, and `some n` when a consumer sits in
`while len(self._buf) < num: self._can_read.wait()` awaiting `n` bytes. -/
structure PollSys where
  buf : List Char
  serOpen : Bool
  pollerRunning : Bool
  waiting : Option ℕ
deriving DecidableEq, Repr

/-- Atomic transitions of `_poll`, `_read` and the transport.

* `deliver`: one iteration of the poller loop appends ordinary bytes to
  `_buf` and calls `_can_read.notify()`; it requires the loop guard
  `self._ser and self._ser.is_open` and a running poller.
* `close`: the transport closes or fails at an arbitrary moment.
* `pollerExit`: the poller leaves its loop (guard false, or a
  `SerialException` is caught, upon which `_poll` merely calls
  `self._ser.close()`).  The source performs no `notify` on this path, so
  the transition leaves `waiting` untouched.
* `wake`: the blocked consumer in `_read` re-checks
  `len(self._buf) < num`, finds enough bytes, consumes them and returns.
  The transition is enabled whenever enough bytes are buffered, which
  over-approximates the condition-variable discipline (a wake-up would also
  need a prior `notify`); the over-approximation only adds behaviours, so a
  blocked-forever result is stronger. -/
inductive PollStep : PollSys → PollSys → Prop
  | deliver (s : PollSys) (c : Char) (hopen : s.serOpen = true)
      (hrun : s.pollerRunning = true) :
      PollStep s { s with buf := s.buf ++ [c] }
  | close (s : PollSys) : PollStep s { s with serOpen := false }
  | pollerExit (s : PollSys) (hclosed : s.serOpen = false) :
      PollStep s { s with pollerRunning := false }
  | wake (s : PollSys) (n : ℕ) (hw : s.waiting = some n) (hn : n ≤ s.buf.length) :
      PollStep s { s with waiting := none, buf := s.buf.drop n }

/-- Registry operations on the per-port `_callback` and `_edge` arrays. -/
inductive RegOp
  | add (port cb edge : ℕ)
  | remove (port : ℕ)
deriving DecidableEq, Repr

/-- Apply one registry operation through the embedded methods. -/
def applyOp (s : DevState) (op : RegOp) : DevState :=
  match op with
  | .add port cb edge => (add_event_detect s port cb edge).1
  | .remove port => (remove_event_detect s port).1

/-- Apply a sequence of registry operations, oldest first. -/
def applyOps (s : DevState) (ops : List RegOp) : DevState := ops.foldl applyOp s

/-- `edge_selected(port)` from `_poll`, as a function of the port's `_edge`
slot and its current logic level:
`(lv and edge in [RISING, BOTH]) or (not lv and edge in [FALLING, BOTH])`;
a `None` slot is in neither list. -/
def edge_selected (edgeSlot : Option ℕ) (lv : Bool) : Bool :=
  match edgeSlot with
  | none => false
  | some e => (lv && (e == RISING || e == BOTH)) || (!lv && (e == FALLING || e == BOTH))

/-- Condition under which `_poll`'s dispatch loop invokes
`self._callback[port]` for a decoded notification frame:
`edge_detected(port) and edge_selected(port)`, with
`edges = current_value ^ previous_value`,
`edge_detected(port) = bool(edges & (1 << port))` and
`logic_level(port) = bool(current_value & (1 << port))`. -/
def poller_invokes (s : DevState) (current_value previous_value port : ℕ) : Bool :=
  let edges := current_value ^^^ previous_value
  edges.testBit port && edge_selected (s.edge.getD port none) (current_value.testBit port)

/-- Whether a `_callback` slot holds a registered callable. -/
def isRegisteredCb : CbSlot → Bool
  | .callable _ => true
  | _ => false

/-- The `notify` setter never changes the `iomask` field. -/
theorem set_notify_fst_iomask (s : DevState) (e : Bool) :
    (set_notify s e).1.iomask = s.iomask := by
  unfold set_notify; split <;> rfl

/-- The `notify` setter never changes the `iodir` field. -/
theorem set_notify_fst_iodir (s : DevState) (e : Bool) :
    (set_notify s e).1.iodir = s.iodir := by
  unfold set_notify; split <;> rfl

/-- The `notify` setter never changes the port count. -/
theorem set_notify_fst_ports (s : DevState) (e : Bool) :
    (set_notify s e).1.ports = s.ports := by
  unfold set_notify; split <;> rfl

/-- A fresh session remembers its port count. -/
theorem sessionOf_ports (p : ℕ) : (sessionOf p).ports = p := by
  show (set_notify _ false).1.ports = p
  rw [set_notify_fst_ports]
  rfl

/-- A fresh session has `_iodir` all-ones over its ports. -/
theorem sessionOf_iodir (p : ℕ) : (sessionOf p).iodir = 2 ^ p - 1 := by
  show (set_notify _ false).1.iodir = 2 ^ p - 1
  rw [set_notify_fst_iodir]
  rfl

/-- A fresh session has `_iomask` equal to `MASK ^ MASK`. -/
theorem sessionOf_iomask (p : ℕ) : (sessionOf p).iomask = (2 ^ p - 1) ^^^ (2 ^ p - 1) := by
  show (set_notify _ false).1.iomask = (2 ^ p - 1) ^^^ (2 ^ p - 1)
  rw [set_notify_fst_iomask]
  rfl

/-- C1: a completed `writeall(bits)` stores exactly `bits & ~iodir` into the
cached `state`, so no bit of `state` is set at a position where the
corresponding `iodir` (input) bit is set.  The hypothesis restricts `bits`
to the bit vectors of the claim, `[0, 2^ports - 1]`. -/
theorem writeall_masks_inputs (s : DevState) (bits : ℕ)
    (_hb : bits < 2 ^ s.ports) :
    (writeall s bits).1.state = pyAndNot bits s.iodir ∧
    ∀ p, s.iodir.testBit p = true → (writeall s bits).1.state.testBit p = false := by
  refine ⟨rfl, fun p hp => ?_⟩
  show (pyAndNot bits s.iodir).testBit p = false
  rw [pyAndNot_eq_ldiff, Nat.testBit_ldiff, hp]
  simp

/-- Witness for C1 on an 8-port session (iodir all-ones) and `bits = 3`. -/
theorem writeall_masks_inputs_witness :
    (3 : ℕ) < 2 ^ (sessionOf 8).ports ∧
    (writeall (sessionOf 8) 3).1.state = pyAndNot 3 (sessionOf 8).iodir ∧
    (writeall (sessionOf 8) 3).1.state.testBit 0 = false :=
  ⟨by decide,
   (writeall_masks_inputs (sessionOf 8) 3 (by decide)).1,
   (writeall_masks_inputs (sessionOf 8) 3 (by decide)).2 0 (by decide)⟩

/-- C2: every completed `iodir` assignment issues exactly the sequence
`gpio iomask <all-ones>`, `gpio iodir <direction>`,
`gpio iomask <direction ^ all-ones>`, caches the direction, and leaves
`iomask = ~iodir` over the `ports` bits; the same invariant holds at the end
of session construction (`initSession`). -/
theorem set_iodir_sequence_and_iomask_complement (s : DevState) (d p : ℕ) :
    (set_iodir s d).2.1 =
      ["gpio iomask " ++ pyHexPad (MASK_ALL_PORTS s) (HEX_DIGITS s),
       "gpio iodir " ++ pyHexPad d (HEX_DIGITS s),
       "gpio iomask " ++ pyHexPad (d ^^^ MASK_ALL_PORTS s) (HEX_DIGITS s)] ∧
    (set_iodir s d).1.iodir = d ∧
    (set_iodir s d).1.iomask = MASK_ALL_PORTS s ^^^ (set_iodir s d).1.iodir ∧
    (∀ i, i < s.ports →
      (set_iodir s d).1.iomask.testBit i = !(set_iodir s d).1.iodir.testBit i) ∧
    (sessionOf p).iomask = MASK_ALL_PORTS (sessionOf p) ^^^ (sessionOf p).iodir := by
  refine ⟨rfl, rfl, ?_, ?_, ?_⟩
  · show d ^^^ MASK_ALL_PORTS s = MASK_ALL_PORTS s ^^^ d
    exact Nat.xor_comm d (MASK_ALL_PORTS s)
  · intro i hi
    show (d ^^^ MASK_ALL_PORTS s).testBit i = !(d.testBit i)
    rw [MASK_ALL_PORTS, Nat.testBit_xor, Nat.testBit_two_pow_sub_one]
    simp [hi]
  · rw [sessionOf_iomask, sessionOf_iodir, MASK_ALL_PORTS, sessionOf_ports]

/-- Witness for C2 on an 8-port session with direction 5 and bit 2. -/
theorem set_iodir_sequence_and_iomask_complement_witness :
    (set_iodir (sessionOf 8) 5).1.iomask.testBit 2 =
      !(set_iodir (sessionOf 8) 5).1.iodir.testBit 2 :=
  (set_iodir_sequence_and_iomask_complement (sessionOf 8) 5 8).2.2.2.1 2 (by decide)

/-- C3 (evaluation at the failing input): on a freshly constructed 8-port
session, `can_notify` is false, assigning `notify = True` silently returns
without issuing any query and without raising (the claim and the
repository's own tests demand a `NumatoNotifyNotSupportedError`), and
`add_event_detect` likewise succeeds, registering the callback. -/
theorem notify_8port_silently_ignored :
    can_notify (sessionOf 8) = false ∧
    set_notify (sessionOf 8) true = (sessionOf 8, [], none) ∧
    (set_notify (sessionOf 8) true).1.notify = false ∧
    (add_event_detect (sessionOf 8) 3 7 BOTH).2.2 = none ∧
    (add_event_detect (sessionOf 8) 3 7 BOTH).1.callback.getD 3 .pyNone = .callable 7 ∧
    (add_event_detect (sessionOf 8) 3 7 BOTH).1.edge.getD 3 none = some BOTH := by
  refine ⟨rfl, ?_, ?_, rfl, by decide, by decide⟩
  · rfl
  · rfl

/-- A value whose bit `port` is set has `(x >> port) & 1` truthy. -/
theorem shift_land_one_ne_zero_of_testBit (x port : ℕ) (h : x.testBit port = true) :
    (x >>> port) &&& 1 ≠ 0 := by
  intro h0
  have h2 : 1 &&& (x >>> port) = 0 := by rwa [Nat.land_comm]
  simp only [Nat.testBit, h2] at h
  simp at h

/-- `write(port, value)` on a port whose `iodir` bit is set returns the
I/O-direction error with the state untouched. -/
theorem write_input_port_fails (s : DevState) (port : ℕ) (value : Bool)
    (hp : port < s.ports) (hd : (s.iodir >>> port) &&& 1 ≠ 0) :
    write s port value = (s, [], some .ioDirection) := by
  unfold write
  rw [if_pos hp, if_pos hd]

/-- C4: after `setup(port, IN)` completes, `write(port, value)` fails with
the I/O-direction error for every value, returning with the cached state
unchanged (the error is raised before `_state` is touched). -/
theorem write_after_setup_in_fails (s : DevState) (port : ℕ) (value : Bool)
    (hp : port < s.ports) :
    write (setup s port IN).1 port value =
      ((setup s port IN).1, [], some .ioDirection) := by
  have hsetup : (setup s port IN).1 =
      (set_iodir s ((s.iodir &&& ((1 <<< port) ^^^ MASK_ALL_PORTS s)) |||
        ((if (IN : ℕ) = 0 then 0 else 1) <<< port))).1 := by
    unfold setup
    rw [if_pos hp]
  have hbit : ((s.iodir &&& ((1 <<< port) ^^^ MASK_ALL_PORTS s)) |||
      ((if (IN : ℕ) = 0 then 0 else 1) <<< port)).testBit port = true := by
    have h1 : (if (IN : ℕ) = 0 then (0 : ℕ) else 1) = 1 := rfl
    rw [h1, Nat.testBit_lor, Nat.one_shiftLeft, Nat.testBit_two_pow_self]
    simp
  rw [hsetup]
  exact write_input_port_fails _ port value hp
    (shift_land_one_ne_zero_of_testBit _ port hbit)

/-- Witness for C4 on an 8-port session, port 3. -/
theorem write_after_setup_in_fails_witness :
    write (setup (sessionOf 8) 3 IN).1 3 true =
      ((setup (sessionOf 8) 3 IN).1, [], some .ioDirection) :=
  write_after_setup_in_fails (sessionOf 8) 3 true (by decide)

/-- C5 counterexample: the echo comparison of `_read_string` is exact
(`string != expected`), not case-insensitive.  For the query `ver` with
end-of-line `"\r\n"`, an echo of `VER` differs only in case from the sent
query, yet `_query` fails with an echo error (carrying the sent query and
the echoed bytes). -/
theorem query_echo_not_case_insensitive :
    (query "ver".toList ['\r', '\n'] "VER\r\n>".toList).2 =
      .echoError "ver".toList "VER\r\n".toList ∧
    toLowerList "VER\r\n".toList = toLowerList ("ver".toList ++ ['\r', '\n']) := by
  decide

/-- C5 amended: `query(text)` writes `text` plus a single carriage return,
consumes exactly `len(text) + len(eol)` bytes from the Handoff Buffer and
compares them for exact (case-sensitive) equality with `text` followed by
the end-of-line sequence; a mismatch fails with an echo error carrying both
the sent query and the bytes actually echoed. -/
theorem query_writes_cr_consumes_echo_exact (q eol buf : List Char)
    (h : q.length + eol.length ≤ buf.length) :
    (query q eol buf).1 = q ++ ['\r'] ∧
    (query q eol buf).2 =
      (if buf.take (q.length + eol.length) = q ++ eol
       then .ok (buf.drop (q.length + eol.length))
       else .echoError q (buf.take (q.length + eol.length))) := by
  have hlen : (q ++ eol).length = q.length + eol.length := List.length_append q eol
  unfold query read_buf
  rw [hlen, if_pos h]
  refine ⟨?_, ?_⟩
  · show (if List.take (q.length + eol.length) buf = q ++ eol
        then (q ++ ['\r'], QueryRes.ok (List.drop (q.length + eol.length) buf))
        else (q ++ ['\r'], QueryRes.echoError q (List.take (q.length + eol.length) buf))).1
      = q ++ ['\r']
    rw [apply_ite Prod.fst]
    simp
  · show (if List.take (q.length + eol.length) buf = q ++ eol
        then (q ++ ['\r'], QueryRes.ok (List.drop (q.length + eol.length) buf))
        else (q ++ ['\r'], QueryRes.echoError q (List.take (q.length + eol.length) buf))).2
      = (if buf.take (q.length + eol.length) = q ++ eol
        then .ok (buf.drop (q.length + eol.length))
        else .echoError q (buf.take (q.length + eol.length)))
    rw [apply_ite Prod.snd]

/-- Witness for C5 amended: query `ver`, eol `"\r\n"`, exact echo present. -/
theorem query_writes_cr_consumes_echo_exact_witness :
    (query "ver".toList ['\r', '\n'] "ver\r\n>".toList).1 = "ver".toList ++ ['\r'] ∧
    (query "ver".toList ['\r', '\n'] "ver\r\n>".toList).2 =
      (if "ver\r\n>".toList.take ("ver".toList.length + (['\r', '\n'] : List Char).length) =
          "ver".toList ++ ['\r', '\n']
       then .ok ("ver\r\n>".toList.drop ("ver".toList.length + (['\r', '\n'] : List Char).length))
       else .echoError "ver".toList
         ("ver\r\n>".toList.take ("ver".toList.length + (['\r', '\n'] : List Char).length))) :=
  query_writes_cr_consumes_echo_exact "ver".toList ['\r', '\n'] "ver\r\n>".toList (by decide)

/-- Dropping all but the last three elements of a list that ends in a
three-element suffix yields that suffix. -/
theorem drop_length_sub_three (pre suffix : List Char) (h : suffix.length = 3) :
    (pre ++ suffix).drop ((pre ++ suffix).length - 3) = suffix := by
  apply List.drop_left'
  rw [List.length_append, h]
  omega

/-- C6: for each of the four supported end-of-line sequences, `_detect_eol`
applied to the device's `id get` response (echo, id and prompt, each line
terminated by the sequence) inspects the two characters before the prompt,
adopts both when the first is a carriage return or line feed and only the
second otherwise, and thereby recovers exactly the device's sequence. -/
theorem detect_eol_yields_device_eol (eol idchars : List Char)
    (he : eol = ['\r', '\n'] ∨ eol = ['\n', '\r'] ∨ eol = ['\r'] ∨ eol = ['\n'])
    (hlen : idchars.length = 8)
    (hhex : ∀ c ∈ idchars, isHexChar c = true) :
    detect_eol (id_get_response eol idchars) = eol := by
  have hne : idchars ≠ [] := by
    intro h0
    rw [h0] at hlen
    simp at hlen
  have hxmem : idchars.getLast hne ∈ idchars := List.getLast_mem hne
  have hx := hhex _ hxmem
  have hxcr : ¬(idchars.getLast hne = '\r' ∨ idchars.getLast hne = '\n') := by
    rintro (h1 | h1) <;> rw [h1] at hx <;> exact absurd hx (by decide)
  rcases he with rfl | rfl | rfl | rfl
  · have hresp : id_get_response ['\r', '\n'] idchars =
        ("id get".toList ++ ['\r', '\n'] ++ idchars) ++ ['\r', '\n', '>'] := by
      simp [id_get_response]
    rw [hresp]
    unfold detect_eol
    rw [drop_length_sub_three _ _ (by simp)]
    decide
  · have hresp : id_get_response ['\n', '\r'] idchars =
        ("id get".toList ++ ['\n', '\r'] ++ idchars) ++ ['\n', '\r', '>'] := by
      simp [id_get_response]
    rw [hresp]
    unfold detect_eol
    rw [drop_length_sub_three _ _ (by simp)]
    decide
  · have hresp : id_get_response ['\r'] idchars =
        ("id get".toList ++ ['\r'] ++ idchars.dropLast) ++
          [idchars.getLast hne, '\r', '>'] := by
      rw [id_get_response]
      simp only [List.append_assoc]
      rw [show ([idchars.getLast hne, '\r', '>'] : List Char) =
        [idchars.getLast hne] ++ (['\r'] ++ ['>']) from rfl]
      rw [← List.append_assoc idchars.dropLast]
      rw [List.dropLast_append_getLast hne]
    rw [hresp]
    unfold detect_eol
    rw [drop_length_sub_three _ _ (by simp)]
    show (if idchars.getLast hne = '\r' ∨ idchars.getLast hne = '\n'
      then [idchars.getLast hne, '\r'] else ['\r']) = ['\r']
    rw [if_neg hxcr]
  · have hresp : id_get_response ['\n'] idchars =
        ("id get".toList ++ ['\n'] ++ idchars.dropLast) ++
          [idchars.getLast hne, '\n', '>'] := by
      rw [id_get_response]
      simp only [List.append_assoc]
      rw [show ([idchars.getLast hne, '\n', '>'] : List Char) =
        [idchars.getLast hne] ++ (['\n'] ++ ['>']) from rfl]
      rw [← List.append_assoc idchars.dropLast]
      rw [List.dropLast_append_getLast hne]
    rw [hresp]
    unfold detect_eol
    rw [drop_length_sub_three _ _ (by simp)]
    show (if idchars.getLast hne = '\r' ∨ idchars.getLast hne = '\n'
      then [idchars.getLast hne, '\n'] else ['\n']) = ['\n']
    rw [if_neg hxcr]

/-- Witness for C6: eol `"\n\r"` and the id `00004711`. -/
theorem detect_eol_yields_device_eol_witness :
    detect_eol (id_get_response ['\n', '\r'] "00004711".toList) = ['\n', '\r'] :=
  detect_eol_yields_device_eol ['\n', '\r'] "00004711".toList
    (Or.inr (Or.inl rfl)) (by decide) (by decide)

/-- C7 (evaluation): the capability table of `device_types.py` reports
notification support only for the 16-port variant and none of the 32-, 64-
and 128-port variants, while `NumatoUsbGpio.can_notify` in the same package
reports support for every variant except 8 ports. -/
theorem device_types_notification_support_eval :
    USB_GPIO_8.supports_notification = false ∧
    USB_GPIO_16.supports_notification = true ∧
    USB_GPIO_32.supports_notification = false ∧
    USB_GPIO_64.supports_notification = false ∧
    USB_GPIO_128.supports_notification = false ∧
    (spec_from_number_of_ports 32).map DeviceSpec.supports_notification = some false ∧
    (spec_from_number_of_ports 64).map DeviceSpec.supports_notification = some false ∧
    (spec_from_number_of_ports 128).map DeviceSpec.supports_notification = some false ∧
    can_notify (sessionOf 16) = true ∧
    can_notify (sessionOf 32) = true ∧
    can_notify (sessionOf 64) = true ∧
    can_notify (sessionOf 128) = true ∧
    can_notify (sessionOf 8) = false := by
  decide

/-- C8 (evaluation): `adc_read` formats the port argument of its query with
Python's plain `"{}"` (no zero padding) on every device; on the 64- and
128-port devices the ADC-capable port 5 is queried as `adc read 5`, not as
the two-digit `adc read 05` the claim requires, and the capability table
declares `adc_port_digits = 1` even for those devices. -/
theorem adc_read_query_unpadded_eval :
    adc_read (sessionOf 64) 5 = some (["adc read 5"], none) ∧
    adc_read (sessionOf 128) 5 = some (["adc read 5"], none) ∧
    adc_read (sessionOf 32) 5 = some (["adc read 5"], none) ∧
    ("adc read 5" : String) ≠ "adc read 05" ∧
    USB_GPIO_64.adc_port_digits = 1 ∧
    USB_GPIO_128.adc_port_digits = 1 := by
  decide

/-- C9 (refutation of the release requirement on the code as written): once
the serial port is closed, a consumer blocked in `_read` waiting for `n`
bytes that are not buffered stays blocked in every reachable state of the
poller/reader system — no transition of the source ever wakes it, because
the only buffer-filling transition requires an open port, no transition
reopens the port, and the poller's exit path closes the port without
notifying `_can_read`. -/
theorem blocked_read_stuck_after_close (s s' : PollSys) (n : ℕ)
    (hw : s.waiting = some n) (hb : s.buf.length < n) (hc : s.serOpen = false)
    (hr : Relation.ReflTransGen PollStep s s') :
    s'.waiting = some n ∧ s'.buf.length < n := by
  have key : s'.waiting = some n ∧ s'.buf.length < n ∧ s'.serOpen = false := by
    induction hr with
    | refl => exact ⟨hw, hb, hc⟩
    | tail _ hbc ih =>
      obtain ⟨ihw, ihb, ihc⟩ := ih
      cases hbc with
      | deliver c hopen hrun =>
        rw [ihc] at hopen
        exact absurd hopen (by decide)
      | close => exact ⟨ihw, ihb, rfl⟩
      | pollerExit hcl => exact ⟨ihw, ihb, ihc⟩
      | wake m hwt hn =>
        rw [ihw] at hwt
        injection hwt with hmn
        rw [← hmn] at hn
        omega
  exact ⟨key.1, key.2.1⟩

/-- Witness for C9: a consumer awaiting one byte on an empty buffer with the
port closed, under the empty (reflexive) run. -/
theorem blocked_read_stuck_after_close_witness :
    (⟨[], false, true, some 1⟩ : PollSys).waiting = some 1 ∧
    (⟨[], false, true, some 1⟩ : PollSys).buf.length < 1 :=
  blocked_read_stuck_after_close ⟨[], false, true, some 1⟩ ⟨[], false, true, some 1⟩ 1
    rfl (by decide) rfl Relation.ReflTransGen.refl

/-- Synchronisation invariant of the callback registry: the two per-port
arrays have equal length, and wherever the `_edge` slot is set, the
`_callback` slot holds a registered callable. -/
def RegInv (s : DevState) : Prop :=
  s.callback.length = s.edge.length ∧
  ∀ p, (s.edge.getD p none).isSome = true →
    isRegisteredCb (s.callback.getD p .intZero) = true

/-- The `notify` setter never changes the callback array. -/
theorem set_notify_fst_callback (s : DevState) (e : Bool) :
    (set_notify s e).1.callback = s.callback := by
  unfold set_notify; split <;> rfl

/-- The `notify` setter never changes the edge array. -/
theorem set_notify_fst_edge (s : DevState) (e : Bool) :
    (set_notify s e).1.edge = s.edge := by
  unfold set_notify; split <;> rfl

/-- A fresh session has all callback slots at the integer `0`. -/
theorem sessionOf_callback (p : ℕ) :
    (sessionOf p).callback = List.replicate p .intZero := by
  show (set_notify _ false).1.callback = List.replicate p .intZero
  rw [set_notify_fst_callback]
  rfl

/-- A fresh session has an empty (all-`None`) edge filter. -/
theorem sessionOf_edge (p : ℕ) : (sessionOf p).edge = List.replicate p none := by
  show (set_notify _ false).1.edge = List.replicate p none
  rw [set_notify_fst_edge]
  rfl

/-- The registry invariant holds on a fresh session. -/
theorem regInv_sessionOf (p : ℕ) : RegInv (sessionOf p) := by
  constructor
  · rw [sessionOf_callback, sessionOf_edge]
    simp
  · intro q hq
    rw [sessionOf_edge] at hq
    rw [List.getD_eq_getElem?_getD, List.getElem?_replicate] at hq
    by_cases h : q < p
    · rw [if_pos h] at hq
      simp at hq
    · rw [if_neg h] at hq
      simp at hq

/-- The registry invariant is preserved by `add_event_detect` and
`remove_event_detect`. -/
theorem regInv_applyOp (s : DevState) (op : RegOp) (h : RegInv s) :
    RegInv (applyOp s op) := by
  obtain ⟨hlen, hreg⟩ := h
  cases op with
  | add port cb edge =>
    refine ⟨?_, fun p hp => ?_⟩
    · show (s.callback.set port (.callable cb)).length = (s.edge.set port (some edge)).length
      simp [hlen]
    · show isRegisteredCb ((s.callback.set port (.callable cb)).getD p .intZero) = true
      have hp2 : ((s.edge.set port (some edge)).getD p none).isSome = true := hp
      rw [List.getD_eq_getElem?_getD, List.getElem?_set] at hp2
      rw [List.getD_eq_getElem?_getD, List.getElem?_set]
      by_cases hpe : port = p
      · rw [if_pos hpe] at hp2 ⊢
        rw [hlen]
        by_cases hlt : port < s.edge.length
        · rw [if_pos hlt]
          rfl
        · rw [if_neg hlt] at hp2
          simp at hp2
      · rw [if_neg hpe] at hp2 ⊢
        have hpr := hreg p
        rw [List.getD_eq_getElem?_getD, List.getD_eq_getElem?_getD] at hpr
        exact hpr hp2
  | remove port =>
    refine ⟨?_, fun p hp => ?_⟩
    · show (s.callback.set port .pyNone).length = (s.edge.set port none).length
      simp [hlen]
    · show isRegisteredCb ((s.callback.set port .pyNone).getD p .intZero) = true
      have hp2 : ((s.edge.set port none).getD p none).isSome = true := hp
      rw [List.getD_eq_getElem?_getD, List.getElem?_set] at hp2
      rw [List.getD_eq_getElem?_getD, List.getElem?_set]
      by_cases hpe : port = p
      · rw [if_pos hpe] at hp2
        by_cases hlt : port < s.edge.length
        · rw [if_pos hlt] at hp2
          simp at hp2
        · rw [if_neg hlt] at hp2
          simp at hp2
      · rw [if_neg hpe] at hp2 ⊢
        have hpr := hreg p
        rw [List.getD_eq_getElem?_getD, List.getD_eq_getElem?_getD] at hpr
        exact hpr hp2

/-- The registry invariant is preserved by any sequence of registry
operations. -/
theorem regInv_applyOps (ops : List RegOp) (s : DevState) (h : RegInv s) :
    RegInv (applyOps s ops) := by
  induction ops generalizing s with
  | nil => exact h
  | cons op rest ih => exact ih (applyOp s op) (regInv_applyOp s op h)

/-- C10: starting from a fresh session (whose edge filter is entirely
empty), after any sequence of `add_event_detect`/`remove_event_detect`
operations the poller invokes the callback of a port only when that port's
edge filter is set, and then the callback slot always holds a registered
callable — never the initial `0` or a removed `None` entry. -/
theorem poller_never_invokes_unregistered (ports : ℕ) (ops : List RegOp)
    (current_value previous_value port : ℕ)
    (hf : poller_invokes (applyOps (sessionOf ports) ops)
      current_value previous_value port = true) :
    isRegisteredCb
      ((applyOps (sessionOf ports) ops).callback.getD port .intZero) = true ∧
    (sessionOf ports).edge = List.replicate ports none := by
  refine ⟨?_, sessionOf_edge ports⟩
  have hinv := regInv_applyOps ops (sessionOf ports) (regInv_sessionOf ports)
  apply hinv.2 port
  unfold poller_invokes at hf
  rw [Bool.and_eq_true] at hf
  obtain ⟨-, hsel⟩ := hf
  cases hslot : (applyOps (sessionOf ports) ops).edge.getD port none with
  | none =>
    rw [hslot] at hsel
    simp [edge_selected] at hsel
  | some e => rfl

/-- Witness for C10: an 8-port session, one registration on port 2 with
edge `BOTH`, and a notification frame flipping port 2 to high. -/
theorem poller_never_invokes_unregistered_witness :
    isRegisteredCb
      ((applyOps (sessionOf 8) [.add 2 7 3]).callback.getD 2 .intZero) = true ∧
    (sessionOf 8).edge = List.replicate 8 none :=
  poller_never_invokes_unregistered 8 [.add 2 7 3] 4 0 2 (by decide)

end NumatoGpio
